import Mathlib

/-!
Verification of the fitness-tracker module (`homework.py`).

The program is a small polymorphic calculator over three session record
types (Running, SportsWalking, Swimming), a dispatch function
`read_package`, and a report formatter `InfoMessage.get_message`.

Shallow embedding choices:
- Python numbers (ints and floats) are modelled as exact rationals `ℚ`;
  the decimal literals of the source (`0.65`, `1.79`, ...) are taken at
  their exact decimal value.
- Python exceptions are modelled as an explicit error channel
  (`Except PyError _`) on the operations that can raise.
- `Training.get_spent_calories` in the source RETURNS the class object
  `NotImplementedError` (it does not raise), so its model returns an
  ordinary value of a sum type `PyValue` that can hold either a number
  or a class object.
- Python's dynamic attribute lookup means the inherited
  `Training.get_distance` body reads `Swimming.LEN_STEP = 1.38` when the
  receiver is a `Swimming`; the per-variant definitions below reflect
  that dispatch.
-/

/-- A Python runtime value as far as this program produces one from
`get_spent_calories`: either a number or a class object (the source's
base method returns the class `NotImplementedError` as a value). -/
inductive PyValue where
  | num (q : ℚ)
  | cls (name : String)
deriving DecidableEq

/-- The Python exceptions this program can raise: `ValueError` (with its
argument tuple: a message string followed by further string arguments),
`TypeError` (constructor arity mismatch on `*data` unpacking) and
`ZeroDivisionError`. -/
inductive PyError where
  | valueError (msg : String) (args : List String)
  | typeError (msg : String)
  | zeroDivisionError (msg : String)
deriving DecidableEq

/-- Base dataclass `Training(action, duration, weight)`. -/
structure Training where
  action : ℚ
  duration : ℚ
  weight : ℚ
deriving DecidableEq

/-- Dataclass `Running(Training)`: no extra fields. -/
structure Running extends Training
deriving DecidableEq

/-- Dataclass `SportsWalking(Training)`: adds `height`. -/
structure SportsWalking extends Training where
  height : ℚ
deriving DecidableEq

/-- Dataclass `Swimming(Training)`: adds `length_pool` and `count_pool`. -/
structure Swimming extends Training where
  length_pool : ℚ
  count_pool : ℚ
deriving DecidableEq

def Training.M_IN_KM : ℚ := 1000

def Training.LEN_STEP : ℚ := 0.65

def Training.MIN_IN_H : ℚ := 60

def Running.CALORIES_MEAN_SPEED_MULTIPLIER : ℚ := 18

def Running.CALORIES_MEAN_SPEED_SHIFT : ℚ := 1.79

def SportsWalking.CALORIES_WEIGHT_MULTIPLIER : ℚ := 0.035

def SportsWalking.CALORIES_SPEED_HEIGHT_MULTIPLIER : ℚ := 0.029

def SportsWalking.KMH_IN_MSEC : ℚ := 0.278

def SportsWalking.CM_IN_M : ℚ := 100

def Swimming.CALORIES_MEAN_SPEED_SHIFT : ℚ := 1.1

def Swimming.CALORIES_MEAN_SPEED_MULTIPLIER : ℚ := 2

def Swimming.LEN_STEP : ℚ := 1.38

/-- `Training.get_distance`: `self.action * self.LEN_STEP / self.M_IN_KM`. -/
def Training.get_distance (t : Training) : ℚ :=
  t.action * Training.LEN_STEP / Training.M_IN_KM

/-- `Training.get_mean_speed`: `self.get_distance() / self.duration`.
Total on `ℚ` (Python raises `ZeroDivisionError` at `duration = 0`; every
claim about this method assumes `duration > 0`). -/
def Training.get_mean_speed (t : Training) : ℚ :=
  t.get_distance / t.duration

/-- `Running` inherits `get_distance` unchanged (base `LEN_STEP`). -/
def Running.get_distance (r : Running) : ℚ :=
  r.toTraining.get_distance

/-- `Running` inherits `get_mean_speed` unchanged. -/
def Running.get_mean_speed (r : Running) : ℚ :=
  r.toTraining.get_mean_speed

/-- `SportsWalking` inherits `get_distance` unchanged (base `LEN_STEP`). -/
def SportsWalking.get_distance (w : SportsWalking) : ℚ :=
  w.toTraining.get_distance

/-- `SportsWalking` inherits `get_mean_speed` unchanged. -/
def SportsWalking.get_mean_speed (w : SportsWalking) : ℚ :=
  w.toTraining.get_mean_speed

/-- `Swimming` inherits the body of `Training.get_distance`, but
`self.LEN_STEP` resolves dynamically to `Swimming.LEN_STEP = 1.38`. -/
def Swimming.get_distance (s : Swimming) : ℚ :=
  s.action * Swimming.LEN_STEP / Training.M_IN_KM

/-- `Swimming.get_mean_speed` (override):
`self.length_pool * self.count_pool / self.M_IN_KM / self.duration`. -/
def Swimming.get_mean_speed (s : Swimming) : ℚ :=
  s.length_pool * s.count_pool / Training.M_IN_KM / s.duration

/-- `Training.get_spent_calories`: the source's body is
`return NotImplementedError` — it returns the class object as a value
instead of raising. -/
def Training.get_spent_calories (_t : Training) : PyValue :=
  PyValue.cls "NotImplementedError"

/-- `Running.get_spent_calories`:
`(MULT * mean_speed + SHIFT) * weight / M_IN_KM * (duration * MIN_IN_H)`. -/
def Running.get_spent_calories (r : Running) : ℚ :=
  (Running.CALORIES_MEAN_SPEED_MULTIPLIER * r.get_mean_speed
      + Running.CALORIES_MEAN_SPEED_SHIFT)
    * r.weight / Training.M_IN_KM
    * (r.duration * Training.MIN_IN_H)

/-- `SportsWalking.get_spent_calories`. The source divides by
`self.height / self.CM_IN_M` with no guard, and divides by `duration`
inside `get_mean_speed`; a zero divisor raises `ZeroDivisionError` in
Python, modelled here as an explicit error branch. -/
def SportsWalking.get_spent_calories (w : SportsWalking) : Except PyError ℚ :=
  if w.duration = 0 then
    Except.error (PyError.zeroDivisionError "float division by zero")
  else if w.height / SportsWalking.CM_IN_M = 0 then
    Except.error (PyError.zeroDivisionError "float division by zero")
  else
    Except.ok
      ((SportsWalking.CALORIES_WEIGHT_MULTIPLIER * w.weight
          + (w.get_mean_speed * SportsWalking.KMH_IN_MSEC) ^ 2
              / (w.height / SportsWalking.CM_IN_M)
            * SportsWalking.CALORIES_SPEED_HEIGHT_MULTIPLIER
            * w.weight)
        * (w.duration * Training.MIN_IN_H))

/-- `Swimming.get_spent_calories`:
`(mean_speed + SHIFT) * MULT * weight * duration`. -/
def Swimming.get_spent_calories (s : Swimming) : ℚ :=
  (s.get_mean_speed + Swimming.CALORIES_MEAN_SPEED_SHIFT)
    * Swimming.CALORIES_MEAN_SPEED_MULTIPLIER
    * s.weight * s.duration

/-- The value returned by `read_package`: one of the three concrete
training variants. -/
inductive TrainingVariant where
  | swm (s : Swimming)
  | run (r : Running)
  | wlk (w : SportsWalking)
deriving DecidableEq

/-- The keys of the source's dispatch dictionary `workout_type_class`,
in declaration order. -/
def workout_type_keys : List String := ["SWM", "RUN", "WLK"]

/-- The message string of the `ValueError` raised on an unknown code:
the three adjacent Python string literals concatenate with no separator. -/
def read_package_error_msg : String :=
  "Такую тренировку мы не подготовили.Вот список доступных тренировок: "

/-- `read_package(workout_type, data)`: dictionary dispatch on the code,
`*data` unpacking into the variant's dataclass constructor (an arity
mismatch raises `TypeError`), and on an unknown code a `ValueError`
whose argument tuple is the message followed by the dictionary's keys. -/
def read_package (workout_type : String) (data : List ℚ) :
    Except PyError TrainingVariant :=
  if workout_type = "SWM" then
    match data with
    | [a, d, w, lp, cp] => Except.ok (TrainingVariant.swm ⟨⟨a, d, w⟩, lp, cp⟩)
    | _ => Except.error (PyError.typeError "constructor arity mismatch")
  else if workout_type = "RUN" then
    match data with
    | [a, d, w] => Except.ok (TrainingVariant.run ⟨⟨a, d, w⟩⟩)
    | _ => Except.error (PyError.typeError "constructor arity mismatch")
  else if workout_type = "WLK" then
    match data with
    | [a, d, w, h] => Except.ok (TrainingVariant.wlk ⟨⟨a, d, w⟩, h⟩)
    | _ => Except.error (PyError.typeError "constructor arity mismatch")
  else
    Except.error (PyError.valueError read_package_error_msg workout_type_keys)

/-- The decimal digit character for `n % 10`. -/
def digitChar (n : ℕ) : Char :=
  Char.ofNat (48 + n % 10)

/-- Digit-character rendering worker: structural recursion on a fuel
argument (`n / 10 < n` for `n ≥ 10`, so fuel `n + 1` always suffices). -/
def natCharsAux : ℕ → ℕ → List Char
  | 0, _ => []
  | fuel + 1, n =>
    if n < 10 then [digitChar n]
    else natCharsAux fuel (n / 10) ++ [digitChar (n % 10)]

/-- The decimal digit characters of a natural number, most significant
first (the rendering Python uses for the integer part of a number). -/
def natChars (n : ℕ) : List Char :=
  natCharsAux (n + 1) n

/-- Three decimal digit characters, `k % 1000` zero-padded to width 3
(the fractional part of a `.3f` rendering). -/
def pad3 (k : ℕ) : List Char :=
  [digitChar (k / 100), digitChar (k / 10), digitChar k]

/-- Round a rational to the nearest integer, ties to even — the rounding
Python's fixed-point float formatting performs. -/
def roundHalfEven (q : ℚ) : ℤ :=
  if q - ⌊q⌋ < 1 / 2 then ⌊q⌋
  else if 1 / 2 < q - ⌊q⌋ then ⌊q⌋ + 1
  else if ⌊q⌋ % 2 = 0 then ⌊q⌋ else ⌊q⌋ + 1

/-- Python's `format(q, '.3f')` on an exact value: sign, integer part,
a dot, and exactly three fractional digits. -/
def formatFixed3 (q : ℚ) : String :=
  let n : ℤ := roundHalfEven (q * 1000)
  let m : ℕ := n.natAbs
  let sign : List Char := if q < 0 then ['-'] else []
  String.mk (sign ++ natChars (m / 1000) ++ '.' :: pad3 (m % 1000))

/-- The characters of `s` that follow the last dot of `s` (all of `s`
when no dot occurs). -/
def afterLastDot (s : String) : List Char :=
  (List.takeWhile (fun c => c != '.') s.data.reverse).reverse

/-- `s` contains a dot, exactly three characters follow its last dot,
and all three are decimal digits. -/
def hasExactly3FracDigits (s : String) : Prop :=
  '.' ∈ s.data ∧ (afterLastDot s).length = 3 ∧
    ∀ c ∈ afterLastDot s, c.isDigit = true

/-- Dataclass `InfoMessage(training_type, duration, distance, speed,
calories)`. The `training_type` slot receives the class name string. -/
structure InfoMessage where
  training_type : String
  duration : ℚ
  distance : ℚ
  speed : ℚ
  calories : ℚ

/-- `InfoMessage.get_message`: `MESSAGE.format(**asdict(self))` on the
source's fixed template, where each of the four numeric fields carries
the format spec `:.3f`. -/
def InfoMessage.get_message (m : InfoMessage) : String :=
  "Тип тренировки: " ++ m.training_type
    ++ "; Длительность: " ++ formatFixed3 m.duration
    ++ " ч.; Дистанция: " ++ formatFixed3 m.distance
    ++ " км; Ср. скорость: " ++ formatFixed3 m.speed
    ++ " км/ч; Потрачено ккал: " ++ formatFixed3 m.calories
    ++ "."

/-- Modelled from the spec's words (§4.3): the English template the
specification prints, filled the same way, for comparison with the
code's `get_message`. -/
def specTemplateRender (m : InfoMessage) : String :=
  "Session type: " ++ m.training_type
    ++ "; Duration: " ++ formatFixed3 m.duration
    ++ " h.; Distance: " ++ formatFixed3 m.distance
    ++ " km; Mean speed: " ++ formatFixed3 m.speed
    ++ " km/h; Calories burned: " ++ formatFixed3 m.calories
    ++ "."

theorem digitChar_isDigit (n : ℕ) : (digitChar n).isDigit = true := by
  have h : n % 10 < 10 := Nat.mod_lt _ (by omega)
  unfold digitChar
  generalize hg : n % 10 = k
  rw [hg] at h
  interval_cases k <;> decide

theorem digitChar_ne_dot (n : ℕ) : (digitChar n != '.') = true := by
  have h : n % 10 < 10 := Nat.mod_lt _ (by omega)
  unfold digitChar
  generalize hg : n % 10 = k
  rw [hg] at h
  interval_cases k <;> decide

theorem takeWhile_ne_dot_append (l₁ l₂ : List Char)
    (h : ∀ c ∈ l₁, (c != '.') = true) :
    List.takeWhile (fun c => c != '.') (l₁ ++ '.' :: l₂) = l₁ := by
  induction l₁ with
  | nil => simp [List.takeWhile_cons]
  | cons a t ih =>
    have ha : (a != '.') = true := h a (List.mem_cons_self a t)
    rw [List.cons_append, List.takeWhile_cons, if_pos ha,
      ih (fun c hc => h c (List.mem_cons_of_mem a hc))]

theorem pad3_ne_dot (k : ℕ) : ∀ c ∈ pad3 k, (c != '.') = true := by
  intro c hc
  simp only [pad3, List.mem_cons, List.not_mem_nil, or_false] at hc
  rcases hc with rfl | rfl | rfl <;> exact digitChar_ne_dot _

theorem pad3_isDigit (k : ℕ) : ∀ c ∈ pad3 k, c.isDigit = true := by
  intro c hc
  simp only [pad3, List.mem_cons, List.not_mem_nil, or_false] at hc
  rcases hc with rfl | rfl | rfl <;> exact digitChar_isDigit _

theorem afterLastDot_mk_append (A : List Char) (k : ℕ) :
    afterLastDot (String.mk (A ++ '.' :: pad3 k)) = pad3 k := by
  unfold afterLastDot
  show (List.takeWhile (fun c => c != '.') (A ++ '.' :: pad3 k).reverse).reverse = pad3 k
  rw [List.reverse_append, List.reverse_cons, List.append_assoc,
    List.singleton_append]
  rw [takeWhile_ne_dot_append _ _ (fun c hc =>
    pad3_ne_dot k c (List.mem_reverse.mp hc))]
  exact List.reverse_reverse _

theorem formatFixed3_eq (q : ℚ) :
    formatFixed3 q = String.mk
      ((if q < 0 then ['-'] else [])
        ++ natChars ((roundHalfEven (q * 1000)).natAbs / 1000)
        ++ '.' :: pad3 ((roundHalfEven (q * 1000)).natAbs % 1000)) := rfl

theorem formatFixed3_frac3 (q : ℚ) : hasExactly3FracDigits (formatFixed3 q) := by
  rw [formatFixed3_eq q]
  unfold hasExactly3FracDigits
  refine ⟨?_, ?_, ?_⟩
  · show '.' ∈ (if q < 0 then ['-'] else [])
      ++ natChars ((roundHalfEven (q * 1000)).natAbs / 1000)
      ++ '.' :: pad3 ((roundHalfEven (q * 1000)).natAbs % 1000)
    exact List.mem_append_right _ (List.mem_cons_self _ _)
  · rw [afterLastDot_mk_append]
    rfl
  · rw [afterLastDot_mk_append]
    exact pad3_isDigit _

/-- C1: evaluation of the code at the failing input. On the base
`Training` record `(720, 1, 80)` the source's `get_spent_calories`
returns the class object `NotImplementedError` as an ordinary value —
the call completes normally instead of raising, contradicting the
claim that it signals failure. -/
theorem c1_base_calories_returns_value :
    Training.get_spent_calories ⟨720, 1, 80⟩ =
      PyValue.cls "NotImplementedError" := rfl

/-- C2: for every workout-type code outside {SWM, RUN, WLK} and every
data sequence, `read_package` fails with a `ValueError` whose argument
tuple carries, besides the message, exactly the three valid codes
SWM, RUN and WLK. -/
theorem c2_unknown_code (wt : String) (data : List ℚ)
    (h : wt ∉ workout_type_keys) :
    read_package wt data =
      Except.error
        (PyError.valueError read_package_error_msg ["SWM", "RUN", "WLK"]) := by
  simp only [workout_type_keys, List.mem_cons, List.not_mem_nil, or_false,
    not_or] at h
  obtain ⟨h1, h2, h3⟩ := h
  unfold read_package
  rw [if_neg h1, if_neg h2, if_neg h3]
  rfl

theorem c2_witness :
    "XYZ" ∉ workout_type_keys ∧
      read_package "XYZ" [] =
        Except.error
          (PyError.valueError read_package_error_msg ["SWM", "RUN", "WLK"]) :=
  ⟨by decide, c2_unknown_code "XYZ" [] (by decide)⟩

/-- C3: for every valid (code, data) pair — "SWM" with 5 fields, "RUN"
with 3, "WLK" with 4 — `read_package` builds the corresponding variant
with the data bound to the record's fields in declaration order. -/
theorem c3_dispatch_valid :
    (∀ a d w lp cp : ℚ, read_package "SWM" [a, d, w, lp, cp] =
        Except.ok (TrainingVariant.swm ⟨⟨a, d, w⟩, lp, cp⟩)) ∧
    (∀ a d w : ℚ, read_package "RUN" [a, d, w] =
        Except.ok (TrainingVariant.run ⟨⟨a, d, w⟩⟩)) ∧
    (∀ a d w h : ℚ, read_package "WLK" [a, d, w, h] =
        Except.ok (TrainingVariant.wlk ⟨⟨a, d, w⟩, h⟩)) :=
  ⟨fun _ _ _ _ _ => rfl, fun _ _ _ => rfl, fun _ _ _ _ => rfl⟩

/-- C4: for every session of every variant, `get_distance` is
`action * distance_per_action / 1000`, with per-action distance 0.65
for Running and SportsWalking and 1.38 for Swimming. -/
theorem c4_distance :
    (∀ r : Running, Running.get_distance r = r.action * 0.65 / 1000) ∧
    (∀ w : SportsWalking,
        SportsWalking.get_distance w = w.action * 0.65 / 1000) ∧
    (∀ s : Swimming, Swimming.get_distance s = s.action * 1.38 / 1000) :=
  ⟨fun _ => rfl, fun _ => rfl, fun _ => rfl⟩

/-- C5: with positive duration, Running and SportsWalking compute mean
speed as `distance / duration`, while Swimming overrides it to
`length_pool * count_pool / 1000 / duration`, independent of the
action count. -/
theorem c5_mean_speed :
    (∀ r : Running, 0 < r.duration →
        Running.get_mean_speed r = Running.get_distance r / r.duration) ∧
    (∀ w : SportsWalking, 0 < w.duration →
        SportsWalking.get_mean_speed w =
          SportsWalking.get_distance w / w.duration) ∧
    (∀ s : Swimming, 0 < s.duration →
        Swimming.get_mean_speed s =
          s.length_pool * s.count_pool / 1000 / s.duration) ∧
    (∀ s : Swimming, ∀ a : ℚ,
        Swimming.get_mean_speed
            ⟨⟨a, s.duration, s.weight⟩, s.length_pool, s.count_pool⟩ =
          Swimming.get_mean_speed s) :=
  ⟨fun _ _ => rfl, fun _ _ => rfl, fun _ _ => rfl, fun _ _ => rfl⟩

theorem c5_witness :
    (0 < (1 : ℚ)) ∧
      Running.get_mean_speed ⟨⟨15000, 1, 75⟩⟩ =
        Running.get_distance ⟨⟨15000, 1, 75⟩⟩ / 1 ∧
      Swimming.get_mean_speed ⟨⟨720, 1, 80⟩, 25, 40⟩ =
        25 * 40 / 1000 / 1 :=
  ⟨by norm_num, c5_mean_speed.1 ⟨⟨15000, 1, 75⟩⟩ (by norm_num),
    c5_mean_speed.2.2.1 ⟨⟨720, 1, 80⟩, 25, 40⟩ (by norm_num)⟩

/-- C6: for every Running session with positive duration,
`get_spent_calories` is
`(18 * mean_speed + 1.79) * weight / 1000 * (duration * 60)`. -/
theorem c6_running_calories (r : Running) (h : 0 < r.duration) :
    Running.get_spent_calories r =
      (18 * Running.get_mean_speed r + 1.79) * r.weight / 1000
        * (r.duration * 60) := rfl

theorem c6_witness :
    (0 < (1 : ℚ)) ∧
      Running.get_spent_calories ⟨⟨15000, 1, 75⟩⟩ =
        (18 * Running.get_mean_speed ⟨⟨15000, 1, 75⟩⟩ + 1.79) * 75 / 1000
          * (1 * 60) :=
  ⟨by norm_num, c6_running_calories ⟨⟨15000, 1, 75⟩⟩ (by norm_num)⟩

/-- C7: for every SportsWalking session with positive duration and
nonzero height (so that the division is defined), `get_spent_calories`
returns
`(0.035*weight + (mean_speed*0.278)^2 / (height/100) * 0.029 * weight)
  * (duration * 60)`. -/
theorem c7_walking_calories (w : SportsWalking) (h : 0 < w.duration)
    (hh : w.height ≠ 0) :
    SportsWalking.get_spent_calories w =
      Except.ok
        ((0.035 * w.weight
            + (SportsWalking.get_mean_speed w * 0.278) ^ 2 / (w.height / 100)
              * 0.029 * w.weight)
          * (w.duration * 60)) := by
  have h2 : ¬ (w.height / SportsWalking.CM_IN_M = 0) := by
    rw [div_eq_zero_iff]
    push_neg
    exact ⟨hh, by norm_num [SportsWalking.CM_IN_M]⟩
  unfold SportsWalking.get_spent_calories
  rw [if_neg h.ne', if_neg h2]
  rfl

theorem c7_witness :
    (0 < (1 : ℚ)) ∧ ((180 : ℚ) ≠ 0) ∧
      SportsWalking.get_spent_calories ⟨⟨9000, 1, 75⟩, 180⟩ =
        Except.ok
          ((0.035 * 75
              + (SportsWalking.get_mean_speed ⟨⟨9000, 1, 75⟩, 180⟩ * 0.278) ^ 2
                  / (180 / 100) * 0.029 * 75)
            * (1 * 60)) :=
  ⟨by norm_num, by norm_num,
    c7_walking_calories ⟨⟨9000, 1, 75⟩, 180⟩ (by norm_num) (by norm_num)⟩

/-- C8: for every Swimming session with positive duration,
`get_spent_calories` is `(mean_speed + 1.1) * 2 * weight * duration`,
with `mean_speed` the overridden pool-based speed. -/
theorem c8_swimming_calories (s : Swimming) (h : 0 < s.duration) :
    Swimming.get_spent_calories s =
      (Swimming.get_mean_speed s + 1.1) * 2 * s.weight * s.duration := rfl

theorem c8_witness :
    (0 < (1 : ℚ)) ∧
      Swimming.get_spent_calories ⟨⟨720, 1, 80⟩, 25, 40⟩ =
        (Swimming.get_mean_speed ⟨⟨720, 1, 80⟩, 25, 40⟩ + 1.1) * 2 * 80 * 1 :=
  ⟨by norm_num, c8_swimming_calories ⟨⟨720, 1, 80⟩, 25, 40⟩ (by norm_num)⟩

/-- C10: SportsWalking's calorie formula divides by `height / 100` with
no guard, so every session with `height = 0` — even with positive
duration and any other fields — fails with a division-by-zero error. -/
theorem c10_walking_zero_height (w : SportsWalking) (h : 0 < w.duration)
    (hh : w.height = 0) :
    SportsWalking.get_spent_calories w =
      Except.error (PyError.zeroDivisionError "float division by zero") := by
  unfold SportsWalking.get_spent_calories
  rw [if_neg h.ne', if_pos (by rw [hh]; norm_num)]

theorem c10_witness :
    (0 < (1 : ℚ)) ∧
      ((⟨⟨9000, 1, 75⟩, 0⟩ : SportsWalking).height = 0) ∧
      SportsWalking.get_spent_calories ⟨⟨9000, 1, 75⟩, 0⟩ =
        Except.error (PyError.zeroDivisionError "float division by zero") :=
  ⟨by norm_num, rfl,
    c10_walking_zero_height ⟨⟨9000, 1, 75⟩, 0⟩ (by norm_num) rfl⟩

/-- C9 counterexample: the code's formatter does not render the
template with the labels the claim states; at a concrete report the
rendered string differs from that template's rendering. -/
theorem c9_counterexample :
    InfoMessage.get_message ⟨"Running", 1, 1, 1, 1⟩ ≠
      specTemplateRender ⟨"Running", 1, 1, 1, 1⟩ := by decide

/-- C9 (amended): for every report, `get_message` renders the source's
fixed template (`Тип тренировки: {training_type}; Длительность:
{duration:.3f} ч.; Дистанция: {distance:.3f} км; Ср. скорость:
{speed:.3f} км/ч; Потрачено ккал: {calories:.3f}.`), and each of the
four numeric fields renders fixed-point with a dot and exactly three
digits after it, regardless of the value's magnitude or trailing
zeros. -/
theorem c9_report_format (m : InfoMessage) :
    m.get_message =
      "Тип тренировки: " ++ m.training_type
        ++ "; Длительность: " ++ formatFixed3 m.duration
        ++ " ч.; Дистанция: " ++ formatFixed3 m.distance
        ++ " км; Ср. скорость: " ++ formatFixed3 m.speed
        ++ " км/ч; Потрачено ккал: " ++ formatFixed3 m.calories
        ++ "."
      ∧ hasExactly3FracDigits (formatFixed3 m.duration)
      ∧ hasExactly3FracDigits (formatFixed3 m.distance)
      ∧ hasExactly3FracDigits (formatFixed3 m.speed)
      ∧ hasExactly3FracDigits (formatFixed3 m.calories) :=
  ⟨rfl, formatFixed3_frac3 _, formatFixed3_frac3 _,
    formatFixed3_frac3 _, formatFixed3_frac3 _⟩
